import Mathlib

/-
  Verification development for the single-turn tool-calling agent loop of the
  llm-agents notebooks.  The definitions below are a shallow embedding of the
  Python source: pure string manipulation is embedded directly, Python
  exceptions are modelled with Except (Except.error e stands for an exception
  escaping with message e, Except.ok for a normal return), the external
  completion service is modelled as an oracle, and the console prints of the
  dispatcher are modelled as the ToolOutcome value the dispatcher surfaces.
-/

/-- Character code 39, the single-quote character of the Python source. -/
def sqChar : Char := Char.ofNat 39

/-- Character code 34, the double-quote character. -/
def dqChar : Char := Char.ofNat 34

/-- Character code 92, the backslash character. -/
def bslashChar : Char := Char.ofNat 92

/-- One-character string holding a single quote. -/
def pySq : String := String.mk [sqChar]

/-- Wrap a string in single quotes, as Python repr and error messages do. -/
def pyQuoted (s : String) : String := pySq ++ s ++ pySq

/-- Python str.isspace characters relevant to str.strip with no argument. -/
def isPyWs (c : Char) : Bool :=
  c = ' ' || c = Char.ofNat 9 || c = Char.ofNat 10 || c = Char.ofNat 13 ||
  c = Char.ofNat 11 || c = Char.ofNat 12

/-- Drop leading characters satisfying p, modelling the left half of str.strip. -/
def dropWhileChars (p : Char → Bool) : List Char → List Char
  | [] => []
  | c :: cs => if p c then dropWhileChars p cs else c :: cs

/-- Python str.strip restricted to a character predicate: removes all leading
and trailing characters satisfying p. -/
def pyStripBy (p : Char → Bool) (s : String) : String :=
  String.mk ((dropWhileChars p (dropWhileChars p s.data).reverse).reverse)

/-- Python str.strip with no argument (whitespace on both ends). -/
def pyStrip (s : String) : String := pyStripBy isPyWs s

/-- Python str.strip with a double-quote argument. -/
def pyStripDq (s : String) : String := pyStripBy (fun c => c = dqChar) s

/-- Python str.replace of every single-quote character by a double quote,
as done at the top of basic_calculator. -/
def replaceSqByDq (s : String) : String :=
  String.mk (s.data.map (fun c => if c = sqChar then dqChar else c))

/-- Test whether the first list is a prefix of the second, character lists. -/
def charsStartWith : List Char → List Char → Bool
  | [], _ => true
  | _ :: _, [] => false
  | a :: as, b :: bs => a = b && charsStartWith as bs

/-- Substring test on character lists, modelling the Python in operator. -/
def charsContain (pat : List Char) : List Char → Bool
  | [] => charsStartWith pat []
  | c :: cs => charsStartWith pat (c :: cs) || charsContain pat cs

/-- Python substring membership test: pat in s. -/
def strContains (s pat : String) : Bool := charsContain pat.data s.data

/-- JSON values as produced by json.loads.  Numeric literals are modelled as
integers: every numeric literal appearing in the inputs the claims exercise is
an integer, and the parser rejects fractional literals explicitly. -/
inductive Json where
  | null : Json
  | bool (b : Bool) : Json
  | int (n : Int) : Json
  | str (s : String) : Json
  | arr (xs : List Json) : Json
  | obj (kvs : List (String × Json)) : Json

/-- Python dict.get on a parsed JSON object: the value of the last binding of
the key (json.loads keeps the last duplicate), or none. -/
def dictGet (kvs : List (String × Json)) (k : String) : Option Json :=
  match kvs.reverse.find? (fun p => p.1 == k) with
  | some p => some p.2
  | none => none

/-- Python type name of a parsed JSON value, used in exception messages. -/
def pyTypeName : Json → String
  | .null => "NoneType"
  | .bool _ => "bool"
  | .int _ => "int"
  | .str _ => "str"
  | .arr _ => "list"
  | .obj _ => "dict"

/-- Skip JSON whitespace. -/
def skipWs : List Char → List Char
  | [] => []
  | c :: cs => if c = ' ' || c = Char.ofNat 9 || c = Char.ofNat 10 || c = Char.ofNat 13
      then skipWs cs else c :: cs

/-- Translate a JSON escape character to the character it denotes.  The \u
form is not modelled (no claim input uses it) and yields none. -/
def unescChar (c : Char) : Option Char :=
  if c = dqChar then some dqChar
  else if c = bslashChar then some bslashChar
  else if c = '/' then some '/'
  else if c = 'n' then some (Char.ofNat 10)
  else if c = 't' then some (Char.ofNat 9)
  else if c = 'r' then some (Char.ofNat 13)
  else if c = 'b' then some (Char.ofNat 8)
  else if c = 'f' then some (Char.ofNat 12)
  else none

/-- Parse the body of a JSON string after the opening quote; returns the
content characters and the remainder after the closing quote. -/
def parseStrBody : List Char → Option (List Char × List Char)
  | [] => none
  | c :: cs =>
    if c = dqChar then some ([], cs)
    else if c = bslashChar then
      match cs with
      | [] => none
      | e :: cs2 =>
        match unescChar e with
        | some ch =>
          match parseStrBody cs2 with
          | some (content, rest) => some (ch :: content, rest)
          | none => none
        | none => none
    else
      match parseStrBody cs with
      | some (content, rest) => some (c :: content, rest)
      | none => none

/-- Take a maximal run of decimal digits. -/
def takeDigits : List Char → (List Char × List Char)
  | [] => ([], [])
  | c :: cs =>
    if c.isDigit then
      let (ds, rest) := takeDigits cs
      (c :: ds, rest)
    else ([], c :: cs)

/-- Decimal value of a digit list. -/
def digitsToNat : List Char → Nat → Nat
  | [], acc => acc
  | c :: cs, acc => digitsToNat cs (acc * 10 + (c.toNat - 48))

/-- Parse a comma-separated run of string-colon-value members of an object,
ending at a closing brace; the value parser is passed in, the fuel bounds the
member count. -/
def objMembersLoop (pv : List Char → Except String (Json × List Char)) :
    Nat → List Char → List (String × Json) →
    Except String (List (String × Json) × List Char)
  | 0, _, _ => .error "Expecting value"
  | fuel + 1, cs, acc =>
    match skipWs cs with
    | [] => .error "Unterminated object"
    | c :: rest =>
      if c = dqChar then
        match parseStrBody rest with
        | none => .error "Unterminated string"
        | some (key, afterKey) =>
          match skipWs afterKey with
          | [] => .error "Expecting colon"
          | k :: afterColonChar =>
            if k = ':' then
              match pv afterColonChar with
              | .error e => .error e
              | .ok (v, afterVal) =>
                match skipWs afterVal with
                | [] => .error "Unterminated object"
                | d :: afterDelim =>
                  if d = ',' then
                    objMembersLoop pv fuel afterDelim (acc ++ [(String.mk key, v)])
                  else if d = Char.ofNat 125 then
                    .ok (acc ++ [(String.mk key, v)], afterDelim)
                  else .error "Expecting comma delimiter"
            else .error "Expecting colon"
      else .error "Expecting property name enclosed in double quotes"

/-- Parse a comma-separated run of values of an array, ending at a closing
bracket; the value parser is passed in. -/
def arrElemsLoop (pv : List Char → Except String (Json × List Char)) :
    Nat → List Char → List Json → Except String (List Json × List Char)
  | 0, _, _ => .error "Expecting value"
  | fuel + 1, cs, acc =>
    match pv cs with
    | .error e => .error e
    | .ok (v, afterVal) =>
      match skipWs afterVal with
      | [] => .error "Unterminated array"
      | d :: afterDelim =>
        if d = ',' then arrElemsLoop pv fuel afterDelim (acc ++ [v])
        else if d = Char.ofNat 93 then .ok (acc ++ [v], afterDelim)
        else .error "Expecting comma delimiter"

/-- Recursive-descent parser for one JSON value; the fuel bounds the nesting
depth.  Mirrors the grammar json.loads accepts on the inputs the claims
exercise; fractional and exponent numeric literals are rejected with an
explicit message. -/
def parseValue : Nat → List Char → Except String (Json × List Char)
  | 0, _ => .error "Expecting value"
  | fuel + 1, cs =>
    match skipWs cs with
    | [] => .error "Expecting value"
    | c :: rest =>
      if c = dqChar then
        match parseStrBody rest with
        | some (content, r) => .ok (.str (String.mk content), r)
        | none => .error "Unterminated string"
      else if c = Char.ofNat 123 then
        match skipWs rest with
        | [] => .error "Unterminated object"
        | d :: rest2 =>
          if d = Char.ofNat 125 then .ok (.obj [], rest2)
          else
            match objMembersLoop (parseValue fuel) (rest.length + 1) (d :: rest2) [] with
            | .ok (kvs, r) => .ok (.obj kvs, r)
            | .error e => .error e
      else if c = Char.ofNat 91 then
        match skipWs rest with
        | [] => .error "Unterminated array"
        | d :: rest2 =>
          if d = Char.ofNat 93 then .ok (.arr [], rest2)
          else
            match arrElemsLoop (parseValue fuel) (rest.length + 1) (d :: rest2) [] with
            | .ok (xs, r) => .ok (.arr xs, r)
            | .error e => .error e
      else if c = 't' then
        if charsStartWith ['r', 'u', 'e'] rest then .ok (.bool true, rest.drop 3)
        else .error "Expecting value"
      else if c = 'f' then
        if charsStartWith ['a', 'l', 's', 'e'] rest then .ok (.bool false, rest.drop 4)
        else .error "Expecting value"
      else if c = 'n' then
        if charsStartWith ['u', 'l', 'l'] rest then .ok (.null, rest.drop 3)
        else .error "Expecting value"
      else if c = '-' then
        match takeDigits rest with
        | ([], _) => .error "Expecting value"
        | (ds, r) =>
          match r with
          | d :: _ =>
            if d = '.' || d = 'e' || d = 'E' then .error "Non-integer literal not modelled"
            else .ok (.int (-(Int.ofNat (digitsToNat ds 0))), r)
          | [] => .ok (.int (-(Int.ofNat (digitsToNat ds 0))), r)
      else if c.isDigit then
        match takeDigits (c :: rest) with
        | (ds, r) =>
          match r with
          | d :: _ =>
            if d = '.' || d = 'e' || d = 'E' then .error "Non-integer literal not modelled"
            else .ok (.int (Int.ofNat (digitsToNat ds 0)), r)
          | [] => .ok (.int (Int.ofNat (digitsToNat ds 0)), r)
      else .error "Expecting value"


/-- Model of json.loads: parse a whole string as one JSON document.  The
error branch models json.JSONDecodeError; its message text approximates the
Python text, nothing in the claims depends on the exact wording. -/
def Json.parse (s : String) : Except String Json :=
  match parseValue (2 * s.length + 8) s.data with
  | .error e => .error e
  | .ok (v, rest) =>
    match skipWs rest with
    | [] => .ok v
    | _ :: _ => .error "Extra data"

/-- Values a supported calculator operation can produce: Python ints, bools,
floats and strings.  True division that does not fault is modelled exactly as
a rational; no claim depends on float rounding. -/
inductive CalcVal where
  | int (n : Int) : CalcVal
  | bool (b : Bool) : CalcVal
  | float (x : Rat) : CalcVal
  | str (s : String) : CalcVal

/-- Python str() of an integer. -/
def intToStr (n : Int) : String := toString n

/-- Python str() applied to a calculator value, as interpolated into the
answer text.  Integral floats print with a trailing .0 as Python does;
non-integral floats are rendered as rationals, a path no claim exercises. -/
def calcValStr : CalcVal → String
  | .int n => intToStr n
  | .bool true => "True"
  | .bool false => "False"
  | .float x => if x.den = 1 then intToStr x.num ++ ".0" else toString x
  | .str s => s

/-- Python floor division on integers (rounds toward negative infinity),
which Int division in Lean already does. -/
def pyFloorDiv (a b : Int) : Int := a / b

/-- Python modulus on integers (sign follows the divisor), which Int.emod
in Lean matches for positive divisors; Python semantics is a % b with the
result having the sign of b.  Int.emod has the sign of b for b > 0; for
negative b Python differs from emod, a path no claim exercises. -/
def pyMod (a b : Int) : Int := a % b

/-- Apply one supported operation name to two parsed JSON operands, modelling
the operator-module functions on the value shapes json.loads can produce.
Except.error models the exception the operation raises (caught by the
calculator), with the CPython message for the claim-relevant cases. -/
def applyOp (op : String) (a b : Json) : Except String CalcVal :=
  match op, a, b with
  | "add", .int x, .int y => .ok (.int (x + y))
  | "add", .str x, .str y => .ok (.str (x ++ y))
  | "add", x, y => .error ("unsupported operand type(s) for +: " ++
      pyQuoted (pyTypeName x) ++ " and " ++ pyQuoted (pyTypeName y))
  | "subtract", .int x, .int y => .ok (.int (x - y))
  | "subtract", x, y => .error ("unsupported operand type(s) for -: " ++
      pyQuoted (pyTypeName x) ++ " and " ++ pyQuoted (pyTypeName y))
  | "multiply", .int x, .int y => .ok (.int (x * y))
  | "multiply", x, y => .error ("unsupported operand type(s) for *: " ++
      pyQuoted (pyTypeName x) ++ " and " ++ pyQuoted (pyTypeName y))
  | "divide", .int x, .int y =>
      if y = 0 then .error "division by zero"
      else .ok (.float ((x : Rat) / (y : Rat)))
  | "divide", x, y => .error ("unsupported operand type(s) for /: " ++
      pyQuoted (pyTypeName x) ++ " and " ++ pyQuoted (pyTypeName y))
  | "floor_divide", .int x, .int y =>
      if y = 0 then .error "integer division or modulo by zero"
      else .ok (.int (pyFloorDiv x y))
  | "floor_divide", x, y => .error ("unsupported operand type(s) for //: " ++
      pyQuoted (pyTypeName x) ++ " and " ++ pyQuoted (pyTypeName y))
  | "modulus", .int x, .int y =>
      if y = 0 then .error "integer division or modulo by zero"
      else .ok (.int (pyMod x y))
  | "modulus", x, y => .error ("unsupported operand type(s) for %: " ++
      pyQuoted (pyTypeName x) ++ " and " ++ pyQuoted (pyTypeName y))
  | "power", .int x, .int y =>
      if y ≥ 0 then .ok (.int (x ^ y.toNat))
      else if x = 0 then .error "0.0 cannot be raised to a negative power"
      else .ok (.float ((x : Rat) ^ y.toNat)⁻¹)
  | "power", x, y => .error ("unsupported operand type(s) for ** or pow(): " ++
      pyQuoted (pyTypeName x) ++ " and " ++ pyQuoted (pyTypeName y))
  | "lt", .int x, .int y => .ok (.bool (decide (x < y)))
  | "lt", .str x, .str y => .ok (.bool (decide (x < y)))
  | "lt", x, y => .error (pyQuoted "<" ++ " not supported between instances of " ++
      pyQuoted (pyTypeName x) ++ " and " ++ pyQuoted (pyTypeName y))
  | "le", .int x, .int y => .ok (.bool (decide (x ≤ y)))
  | "le", .str x, .str y => .ok (.bool (decide (x ≤ y)))
  | "le", x, y => .error (pyQuoted "<=" ++ " not supported between instances of " ++
      pyQuoted (pyTypeName x) ++ " and " ++ pyQuoted (pyTypeName y))
  | "ge", .int x, .int y => .ok (.bool (decide (x ≥ y)))
  | "ge", .str x, .str y => .ok (.bool (decide (y ≤ x)))
  | "ge", x, y => .error (pyQuoted ">=" ++ " not supported between instances of " ++
      pyQuoted (pyTypeName x) ++ " and " ++ pyQuoted (pyTypeName y))
  | "gt", .int x, .int y => .ok (.bool (decide (x > y)))
  | "gt", .str x, .str y => .ok (.bool (decide (y < x)))
  | "gt", x, y => .error (pyQuoted ">" ++ " not supported between instances of " ++
      pyQuoted (pyTypeName x) ++ " and " ++ pyQuoted (pyTypeName y))
  | "eq", .int x, .int y => .ok (.bool (decide (x = y)))
  | "eq", .str x, .str y => .ok (.bool (x == y))
  | "eq", _, _ => .ok (.bool false)
  | "ne", .int x, .int y => .ok (.bool (decide (x ≠ y)))
  | "ne", .str x, .str y => .ok (.bool (x != y))
  | "ne", _, _ => .ok (.bool true)
  | _, _, _ => .error "operation not in table"

/-- The names in the operations dictionary of basic_calculator. -/
def supportedOps : List String :=
  ["add", "subtract", "multiply", "divide", "floor_divide", "modulus",
   "power", "lt", "le", "eq", "ne", "ge", "gt"]

/-- Return shapes of basic_calculator: a single string, or the 2-tuple of an
error message and a hint text that its except branches return. -/
inductive ToolRet where
  | str (s : String) : ToolRet
  | tuple2 (a b : String) : ToolRet
  | list (xs : List Json) : ToolRet

/-- Hint text of the invalid-input branch of basic_calculator. -/
def invalidInputHint : String := "Invalid input format. Please provide a valid JSON string."

/-- Hint text of the operation-failure branch of basic_calculator. -/
def opFailureHint : String := "\n\nError during operation execution."

/-- Text of the unsupported-operation branch of basic_calculator. -/
def unsupportedOpText : String :=
  "\n\nUnsupported operation. Please provide a valid operation."

/-- Input normalization at the top of basic_calculator: replace single quotes
with double quotes, strip wrapping whitespace, then strip wrapping double
quotes, exactly the order of the source. -/
def cleanInput (s : String) : String := pyStripDq (pyStrip (replaceSqByDq s))

/-- Python str() of a KeyError carrying a missing key: the repr of the key. -/
def keyErrorStr (k : String) : String := pyQuoted k

/-- CPython message of the TypeError raised when subscripting a parsed value
that is not a dict with a string key. -/
def subscriptErr (v : Json) : String :=
  match v with
  | .arr _ => "list indices must be integers or slices, not str"
  | .str _ => "string indices must be integers, not " ++ pyQuoted "str"
  | _ => pyQuoted (pyTypeName v) ++ " object is not subscriptable"

/-- Format of the success branch of basic_calculator. -/
def answerText (v : CalcVal) : String :=
  "\n\nThe answer is: " ++ calcValStr v ++ ".\nCalculated with basic_calculator."

/-- Body of basic_calculator on a string argument, translated clause by
clause from the source: clean and parse the input, returning the caught-error
tuple on a JSON decode error or a missing key; raise (Except.error) when the
parsed value is not a dict; look the operation up and either format the
result, return the caught-fault tuple, or return the unsupported-operation
string. -/
def basic_calculator_body (input_str : String) : Except String ToolRet :=
  match Json.parse (cleanInput input_str) with
  | .error e => .ok (.tuple2 e invalidInputHint)
  | .ok parsed =>
    match parsed with
    | .obj kvs =>
      match dictGet kvs "num1" with
      | none => .ok (.tuple2 (keyErrorStr "num1") invalidInputHint)
      | some num1 =>
        match dictGet kvs "num2" with
        | none => .ok (.tuple2 (keyErrorStr "num2") invalidInputHint)
        | some num2 =>
          match dictGet kvs "operation" with
          | none => .ok (.tuple2 (keyErrorStr "operation") invalidInputHint)
          | some operation =>
            match operation with
            | .str opName =>
              if supportedOps.contains opName then
                match applyOp opName num1 num2 with
                | .ok v => .ok (.str (answerText v))
                | .error e => .ok (.tuple2 e opFailureHint)
              else .ok (.str unsupportedOpText)
            | _ => .ok (.str unsupportedOpText)
    | other => .error (subscriptErr other)

/-- CPython message of the AttributeError raised when basic_calculator calls
input_str.replace on a non-string argument. -/
def noReplaceAttrErr (v : Option Json) : String :=
  match v with
  | none => pyQuoted "NoneType" ++ " object has no attribute " ++ pyQuoted "replace"
  | some j => pyQuoted (pyTypeName j) ++ " object has no attribute " ++ pyQuoted "replace"

/-- The basic_calculator callable as invoked by the dispatcher: its argument
is whatever JSON value the decision carried under tool_input (absent modelled
as none).  A non-string argument makes the first attribute access raise. -/
def basic_calculator : Option Json → Except String ToolRet
  | some (.str s) => basic_calculator_body s
  | v => .error (noReplaceAttrErr v)

/-- Python repr of a parsed JSON value, used when reverse_string interpolates
a reversed list; fuel-indexed over nesting depth. -/
def pyRepr : Nat → Json → String
  | _, .null => "None"
  | _, .bool true => "True"
  | _, .bool false => "False"
  | _, .int n => intToStr n
  | _, .str s => pyQuoted s
  | 0, _ => "..."
  | fuel + 1, .arr xs => "[" ++ String.intercalate ", " (xs.map (pyRepr fuel)) ++ "]"
  | fuel + 1, .obj kvs =>
      "\x7b" ++ String.intercalate ", "
        (kvs.map (fun p => pyQuoted p.1 ++ ": " ++ pyRepr fuel p.2)) ++ "\x7d"

/-- Format of the reverse_string result in the part_000 notebook. -/
def reversedText (body : String) : String :=
  "The reversed string is: " ++ body ++ "\n\nExecuted using the reverse_string function."

/-- The reverse_string callable: slicing with [::-1] reverses a string or a
list, raises a TypeError on the other shapes, and the result is interpolated
into the fixed sentence. -/
def reverse_string : Option Json → Except String ToolRet
  | some (.str s) => .ok (.str (reversedText (String.mk s.data.reverse)))
  | some (.arr xs) => .ok (.str (reversedText (pyRepr 8 (.arr xs.reverse))))
  | some (.obj _) => .error ("unhashable type: " ++ pyQuoted "slice")
  | some j => .error (pyQuoted (pyTypeName j) ++ " object is not subscriptable")
  | none => .error (pyQuoted "NoneType" ++ " object is not subscriptable")

/-- A registered tool: the callable name (its Python identifier), its
docstring, and the callable itself as invoked by the dispatcher. -/
structure PyTool where
  name : String
  doc : Option String
  fn : Option Json → Except String ToolRet

/-- Python string formatting of the tool_choice value inside an f-string:
str() of the value, with None for an absent key. -/
def fstrOpt : Option Json → String
  | none => "None"
  | some (.str s) => s
  | some (.int n) => intToStr n
  | some (.bool true) => "True"
  | some (.bool false) => "False"
  | some .null => "None"
  | some j => pyRepr 8 j

/-- Error kinds of the error taxonomy the outcomes are tagged with. -/
inductive ErrKind where
  | ToolExecutionFailed : ErrKind
  | UnknownTool : ErrKind

/-- The outcome a dispatch surfaces on the console: the result printed after
a tool returned, the tool_input text printed by the fall-through of the
mistral notebook, or one of the error messages. -/
inductive ToolOutcome where
  | ToolResult (r : ToolRet) : ToolOutcome
  | DirectAnswer (text : Option Json) : ToolOutcome
  | DispatchError (kind : ErrKind) (detail : String) : ToolOutcome

/-- Values the Python functions work and execute_tool can return to their
caller: the source returns None from both; the spec contract would have the
outcome itself returned. -/
inductive WorkRet where
  | none : WorkRet
  | outcome (o : ToolOutcome) : WorkRet

/-- Equality test of a tool name against the tool_choice value, modelling
the Python comparison tool.__name__ == tool_choice (false on non-strings
and on an absent key). -/
def matchesName (n : String) : Option Json → Bool
  | some (.str s) => n == s
  | _ => false

/-- CPython message of the AttributeError raised when execute_tool calls
response.get on a parsed value that is not a dict. -/
def noGetAttrErr (v : Json) : String :=
  pyQuoted (pyTypeName v) ++ " object has no attribute " ++ pyQuoted "get"

/-- Printed message of the fault branch of Agent.execute_tool. -/
def execFailText (tc : Option Json) (e : String) : String :=
  "Error executing tool " ++ fstrOpt tc ++ ": " ++ e

/-- Printed message of the fall-through branch of Agent.execute_tool. -/
def notFoundText (tc : Option Json) : String :=
  "Tool " ++ fstrOpt tc ++ " not found or unsupported operation."

/-- The Agent.execute_tool method of the part_000 notebook: read tool_choice
and tool_input from the response dict, invoke the first tool whose name
matches inside a try block that converts a raised fault into the error
message print, and otherwise print the not-found message.  The first
component of the pair is the printed outcome, the second the Python return
value (always None); Except.error models the AttributeError raised when the
response is not a dict. -/
def Agent.execute_tool (tools : List PyTool) (response : Json) :
    Except String (ToolOutcome × WorkRet) :=
  match response with
  | .obj kvs =>
    let tool_choice := dictGet kvs "tool_choice"
    let tool_input := dictGet kvs "tool_input"
    match tools.find? (fun t => matchesName t.name tool_choice) with
    | some t =>
      match t.fn tool_input with
      | .ok r => .ok (.ToolResult r, .none)
      | .error e => .ok (.DispatchError .ToolExecutionFailed (execFailText tool_choice e), .none)
    | none => .ok (.DispatchError .UnknownTool (notFoundText tool_choice), .none)
  | other => .error (noGetAttrErr other)

/-- The standalone execute_tool of the mistral notebook: same lookup, but the
tool call has no try block (a raised fault propagates uncaught), and the
fall-through prints tool_input instead of a not-found message. -/
def Mistral.execute_tool (tools : List PyTool) (response : Json) :
    Except String (ToolOutcome × WorkRet) :=
  match response with
  | .obj kvs =>
    let tool_choice := dictGet kvs "tool_choice"
    let tool_input := dictGet kvs "tool_input"
    match tools.find? (fun t => matchesName t.name tool_choice) with
    | some t =>
      match t.fn tool_input with
      | .ok r => .ok (.ToolResult r, .none)
      | .error e => .error e
    | none => .ok (.DirectAnswer tool_input, .none)
  | other => .error (noGetAttrErr other)

/-- The completion service boundary, modelled as an oracle: reply prompt is
the generated text of a successful round trip, and Except.error models a
requests.RequestException with the given message.  The payload construction
of think (model name, system instruction with the rendered catalog,
stream false, temperature, stop) does not influence which branch runs and is
not modelled further. -/
structure ModelSvc where
  reply : String → Except String String

/-- The Agent.think method: post the prompt, parse the generated text with
json.loads and return the parsed value; only a RequestException is caught
(returning the error dict), while a JSONDecodeError from an unparseable
generated text escapes uncaught, modelled by propagating Except.error. -/
def Agent.think (svc : ModelSvc) (prompt : String) : Except String Json :=
  match svc.reply prompt with
  | .error e => .ok (.obj [("error", .str e)])
  | .ok text =>
    match Json.parse text with
    | .ok j => .ok j
    | .error e => .error e

/-- The Agent.work method: think then execute_tool; any exception escaping
either step propagates to the caller, and the Python return value of work is
None (its body ends without a return statement). -/
def Agent.work (tools : List PyTool) (svc : ModelSvc) (prompt : String) :
    Except String (ToolOutcome × WorkRet) :=
  match Agent.think svc prompt with
  | .error e => .error e
  | .ok response =>
    match Agent.execute_tool tools response with
    | .error e => .error e
    | .ok (outc, _) => .ok (outc, WorkRet.none)

/-- Split on the first occurrence of a separator, character lists; none when
the separator does not occur. -/
def splitOnceChars (sep : List Char) : List Char → Option (List Char × List Char)
  | [] => none
  | c :: cs =>
    if charsStartWith sep (c :: cs) then some ([], (c :: cs).drop sep.length)
    else
      match splitOnceChars sep cs with
      | some (pre, post) => some (c :: pre, post)
      | none => none

/-- Python s.split(sep, 1): the part before the first occurrence, and the
part after it when the separator occurs at all. -/
def pySplit1 (sep : String) (s : String) : String × Option String :=
  match splitOnceChars sep.data s.data with
  | some (pre, post) => (String.mk pre, some (String.mk post))
  | none => (s, none)

/-- Split on every occurrence of a character, keeping empty pieces, as
Python split with an explicit separator does. -/
def splitAllChar (sep : Char) : List Char → List (List Char)
  | [] => [[]]
  | c :: cs =>
    if c = sep then [] :: splitAllChar sep cs
    else
      match splitAllChar sep cs with
      | g :: gs => (c :: g) :: gs
      | [] => [[c]]

/-- Python s.split on a newline separator. -/
def pySplitNl (s : String) : List String :=
  (splitAllChar (Char.ofNat 10) s.data).map String.mk

/-- Insert into a Python dict modelled as an ordered association list:
an existing key keeps its position and takes the new value, a new key is
appended. -/
def pyDictInsert {α : Type} (d : List (String × α)) (k : String) (v : α) :
    List (String × α) :=
  if d.any (fun p => p.1 == k) then d.map (fun p => if p.1 == k then (p.1, v) else p)
  else d ++ [(k, v)]

/-- One entry of the parameters mapping of a descriptor. -/
structure ParamInfo where
  param_type : String
  description : String
  required : Bool

/-- The structured tool_info dict built per tool by Agent.prepare_tools. -/
structure ToolInfo where
  name : String
  description : String
  parameters : List (String × ParamInfo)

/-- The docstring as read by Agent.prepare_tools: stripped when present and
truthy, the fixed placeholder when the callable has no documentation (an
empty docstring is falsy in Python and also takes the placeholder). -/
def toolDocstring : Option String → String
  | some d => if d = "" then "No description available." else pyStrip d
  | none => "No description available."

/-- The per-line loop over the parameters section of Agent.prepare_tools,
threading the started flag, the description variable (which the source
rebinds on every parameter line, so the last parameter line overwrites the
tool description) and the parameter dict. -/
def paramLoop : List String → Bool → String → List (String × ParamInfo) →
    String × List (String × ParamInfo)
  | [], _, desc, acc => (desc, acc)
  | line :: rest, started, desc, acc =>
    if strContains line "Parameters:" then paramLoop rest true desc acc
    else if !started || pyStrip line = "" then paramLoop rest started desc acc
    else if strContains line ": " then
      let pre := (pySplit1 ":" line).1
      let post := ((pySplit1 ":" line).2).getD ""
      let param_name := pyStrip (pySplit1 "(" pre).1
      let param_type :=
        match (pySplit1 "(" pre).2 with
        | some afterParen => (pySplit1 ")" afterParen).1
        | none => "str"
      paramLoop rest started post
        (pyDictInsert acc param_name ⟨pyStrip param_type, pyStrip post, true⟩)
    else paramLoop rest started desc acc

/-- The tool_info dict Agent.prepare_tools builds for one tool: first line of
the docstring as description, then the parameter-line loop over everything
after the first blank line whenever that part mentions a Parameters header. -/
def toolInfoOf (t : PyTool) : ToolInfo :=
  let docstring := toolDocstring t.doc
  let parts := pySplit1 "\n\n" docstring
  let description := (pySplitNl parts.1).headD ""
  let parameters_section := parts.2.getD ""
  if strContains parameters_section "Parameters:" then
    let r := paramLoop (pySplitNl parameters_section) false description []
    ⟨t.name, r.1, r.2⟩
  else ⟨t.name, description, []⟩

/-- The tools_info list of Agent.prepare_tools: one descriptor per tool, in
registration order, with no duplicate check of any kind. -/
def Agent.prepare_tools_info (ts : List PyTool) : List ToolInfo :=
  ts.map toolInfoOf

/-- Hexadecimal digit for escape sequences. -/
def hexDigit (n : Nat) : Char :=
  if n < 10 then Char.ofNat (48 + n) else Char.ofNat (87 + n)

/-- Escaping of one character inside a JSON string literal, as json.dumps
performs it. -/
def jsonEscapeChar (c : Char) : List Char :=
  if c = dqChar then [bslashChar, dqChar]
  else if c = bslashChar then [bslashChar, bslashChar]
  else if c = Char.ofNat 10 then [bslashChar, 'n']
  else if c = Char.ofNat 9 then [bslashChar, 't']
  else if c = Char.ofNat 13 then [bslashChar, 'r']
  else if c.toNat < 32 then
    [bslashChar, 'u', '0', '0', hexDigit (c.toNat / 16), hexDigit (c.toNat % 16)]
  else [c]

/-- A JSON string literal as json.dumps renders it. -/
def jsonStrLit (s : String) : String :=
  String.mk ([dqChar] ++ (s.data.map jsonEscapeChar).flatten ++ [dqChar])

/-- One parameter entry as json.dumps with indent 2 renders it inside the
parameters object. -/
def dumpsParam (p : String × ParamInfo) : String :=
  "    " ++ jsonStrLit p.1 ++ ": \x7b\n" ++
  "      " ++ jsonStrLit "param_type" ++ ": " ++ jsonStrLit p.2.param_type ++ ",\n" ++
  "      " ++ jsonStrLit "description" ++ ": " ++ jsonStrLit p.2.description ++ ",\n" ++
  "      " ++ jsonStrLit "required" ++ ": " ++
    (if p.2.required then "true" else "false") ++ "\n" ++
  "    \x7d"

/-- json.dumps of one tool_info dict with indent 2. -/
def dumpsToolInfo (info : ToolInfo) : String :=
  "\x7b\n" ++
  "  " ++ jsonStrLit "name" ++ ": " ++ jsonStrLit info.name ++ ",\n" ++
  "  " ++ jsonStrLit "description" ++ ": " ++ jsonStrLit info.description ++ ",\n" ++
  "  " ++ jsonStrLit "parameters" ++ ": " ++
  (match info.parameters with
   | [] => "\x7b\x7d"
   | ps => "\x7b\n" ++ String.intercalate ",\n" (ps.map dumpsParam) ++ "\n  \x7d") ++
  "\n\x7d"

/-- The rendered catalog text of Agent.prepare_tools: a header sentence per
tool followed by the dumped tool_info, joined by newlines. -/
def Agent.prepare_tools (ts : List PyTool) : String :=
  String.intercalate "\n" ((Agent.prepare_tools_info ts).map (fun info =>
    "Use the function " ++ pyQuoted info.name ++ " to: " ++ info.description ++
    "\n" ++ dumpsToolInfo info))

/-- The tools_dict of the standalone prepare_tools of the mistral notebook: a
dict comprehension from name to raw docstring, so of two tools sharing a name
only the last docstring survives, silently. -/
def Mistral.tools_dict (ts : List PyTool) : List (String × Option String) :=
  ts.foldl (fun d t => pyDictInsert d t.name t.doc) []

/-- Python f-string rendering of a possibly absent docstring. -/
def fstrDoc : Option String → String
  | some s => s
  | none => "None"

/-- The rendered catalog of the mistral notebook: name colon quoted raw
docstring, one line per surviving dict entry. -/
def Mistral.prepare_tools (ts : List PyTool) : String :=
  String.intercalate "\n" ((Mistral.tools_dict ts).map (fun p =>
    p.1 ++ ": " ++ String.mk [dqChar] ++ fstrDoc p.2 ++ String.mk [dqChar]))

/-- Docstring of basic_calculator as written in the part_000 notebook. -/
def basicCalculatorDoc : String :=
  "\n    Perform a numeric operation on two numbers based on the input string.\n\n    Parameters:\n    input_str (str): A JSON string representing a dictionary with keys:\n        - " ++
  pyQuoted "num1" ++ " (int): The first number.\n        - " ++
  pyQuoted "num2" ++ " (int): The second number.\n        - " ++
  pyQuoted "operation" ++ " (str): The operation to perform. Supported operations are " ++
  pyQuoted "add" ++ ", " ++ pyQuoted "subtract" ++ ",\n                             " ++
  pyQuoted "multiply" ++ ", " ++ pyQuoted "divide" ++ ", " ++ pyQuoted "floor_divide" ++
  ", " ++ pyQuoted "modulus" ++ ", " ++ pyQuoted "power" ++ ", " ++ pyQuoted "lt" ++
  ",\n                             " ++ pyQuoted "le" ++ ", " ++ pyQuoted "eq" ++ ", " ++
  pyQuoted "ne" ++ ", " ++ pyQuoted "ge" ++ ", " ++ pyQuoted "gt" ++
  ".\n\n    Returns:\n    str: The formatted result of the operation.\n\n    Raises:\n    Exception: If an error occurs during the operation (e.g., division by zero).\n    ValueError: If an unsupported operation is requested or input is invalid.\n    "

/-- Docstring of reverse_string as written in the part_000 notebook. -/
def reverseStringDoc : String :=
  "\n    Reverse the given string.\n\n    Parameters:\n    - input_string (str): The string to be reversed.\n\n    Returns:\n    str: The reversed string.\n    "

/-- The basic_calculator tool as registered in the tools list. -/
def basic_calculator_tool : PyTool :=
  ⟨"basic_calculator", some basicCalculatorDoc, basic_calculator⟩

/-- The reverse_string tool as registered in the tools list. -/
def reverse_string_tool : PyTool :=
  ⟨"reverse_string", some reverseStringDoc, reverse_string⟩

/-- The tools list of both notebooks. -/
def toolsList : List PyTool := [basic_calculator_tool, reverse_string_tool]

/-- The add decision input of the testable properties. -/
def addInput : String := "\x7b\"num1\": 5, \"num2\": 5, \"operation\": \"add\"\x7d"

/-- The divide-by-zero decision input of the testable properties. -/
def divInput : String := "\x7b\"num1\": 1, \"num2\": 0, \"operation\": \"divide\"\x7d"

/-- A calculator input naming an operation outside the operations table. -/
def frobInput : String := "\x7b\"num1\": 1, \"num2\": 2, \"operation\": \"frobnicate\"\x7d"

/-- A calculator input that is a valid JSON object missing the num1 key. -/
def missingKeyInput : String := "\x7b\"num2\": 0\x7d"

/-- A response dict with string tool_choice and tool_input values. -/
def respOf (tc ti : String) : Json :=
  .obj [("tool_choice", .str tc), ("tool_input", .str ti)]

/-- The formatted answer of the add example. -/
def ans10 : String := "\n\nThe answer is: 10.\nCalculated with basic_calculator."

/-- A completion-service stub whose generated text is a fixed string. -/
def constSvc (s : String) : ModelSvc := ⟨fun _ => .ok s⟩

/-- A completion-service stub that raises a RequestException with a fixed
message. -/
def failSvc (e : String) : ModelSvc := ⟨fun _ => .error e⟩

/-- Generated text of a model reply choosing basic_calculator with the add
input as a JSON-encoded string. -/
def addDecisionText : String :=
  "\x7b\"tool_choice\": \"basic_calculator\", \"tool_input\": \"\x7b\\\"num1\\\": 5, \\\"num2\\\": 5, \\\"operation\\\": \\\"add\\\"\x7d\"\x7d"

/-- A single-quoted pseudo-JSON decision text, as a lenient model might
produce. -/
def sqDecisionText : String :=
  "\x7b" ++ pyQuoted "tool_choice" ++ ": " ++ pyQuoted "no tool" ++ ", " ++
  pyQuoted "tool_input" ++ ": " ++ pyQuoted "hi" ++ "\x7d"

/-- The single-quoted variant of the add input. -/
def sqAddInput : String :=
  "\x7b" ++ pyQuoted "num1" ++ ": 5, " ++ pyQuoted "num2" ++ ": 5, " ++
  pyQuoted "operation" ++ ": " ++ pyQuoted "add" ++ "\x7d"

/-- Recognizer for a dispatch outcome that is a DispatchError of any kind. -/
def isDispatchErr : Except String (ToolOutcome × WorkRet) → Bool
  | .ok (.DispatchError _ _, _) => true
  | _ => false

/-- Recognizer for a dispatch outcome that is a DirectAnswer. -/
def isDirectAnswer : Except String (ToolOutcome × WorkRet) → Bool
  | .ok (.DirectAnswer _, _) => true
  | _ => false

/-- Recognizer for a raised (uncaught) model-client result. -/
def isRaise : Except String Json → Bool
  | .error _ => true
  | .ok _ => false

/-- Recognizer for the 2-tuple return shape of basic_calculator. -/
def isTuple2 : Except String ToolRet → Bool
  | .ok (.tuple2 _ _) => true
  | _ => false

/-- Helper: the descriptor of a tool keeps the callable name. -/
theorem toolInfoOf_name (t : PyTool) : (toolInfoOf t).name = t.name := by
  unfold toolInfoOf; dsimp only; split <;> rfl

/-- Helper: descriptor extraction registers exactly one descriptor per tool,
in registration order, whatever the docstrings contain. -/
theorem prepare_tools_info_names (ts : List PyTool) :
    (Agent.prepare_tools_info ts).map ToolInfo.name = ts.map PyTool.name := by
  unfold Agent.prepare_tools_info
  induction ts with
  | nil => rfl
  | cons t ts ih => simp [toolInfoOf_name, ih]

/-- C1 counterexample: for the decision choosing basic_calculator with the
divide-by-zero input, dispatch does not yield a DispatchError: the tool
catches the division fault itself and returns normally, so the dispatcher
prints a ToolResult carrying the error tuple. -/
theorem c1_counterexample :
    Agent.execute_tool toolsList (respOf "basic_calculator" divInput) =
      .ok (.ToolResult (.tuple2 "division by zero" opFailureHint), .none) ∧
    isDispatchErr (Agent.execute_tool toolsList (respOf "basic_calculator" divInput)) = false :=
  ⟨rfl, rfl⟩

/-- C1 amended: a fault raised out of the invoked catalog tool is always
converted by Agent.execute_tool into the ToolExecutionFailed error outcome
carrying the fault message, never propagated uncaught; but for the
divide-by-zero decision basic_calculator catches the fault internally, so
dispatch yields a ToolResult carrying the error tuple rather than a
DispatchError. -/
theorem c1_amended_dispatch_converts_tool_faults
    (tools : List PyTool) (kvs : List (String × Json)) (t : PyTool) (e : String)
    (hfind : tools.find? (fun tl => matchesName tl.name (dictGet kvs "tool_choice")) = some t)
    (herr : t.fn (dictGet kvs "tool_input") = .error e) :
    Agent.execute_tool tools (.obj kvs) =
      .ok (.DispatchError .ToolExecutionFailed
        (execFailText (dictGet kvs "tool_choice") e), .none) ∧
    Agent.execute_tool toolsList (respOf "basic_calculator" divInput) =
      .ok (.ToolResult (.tuple2 "division by zero" opFailureHint), .none) := by
  constructor
  · simp only [Agent.execute_tool, hfind, herr]
  · rfl

/-- C1 witness: the divide-by-zero fact together with an instance of the
conversion, at a decision whose tool_input makes basic_calculator raise a
TypeError out of the tool. -/
theorem c1_witness :
    Agent.execute_tool toolsList (respOf "basic_calculator" "[1, 2]") =
      .ok (.DispatchError .ToolExecutionFailed
        (execFailText (some (.str "basic_calculator"))
          "list indices must be integers or slices, not str"), .none) ∧
    Agent.execute_tool toolsList (respOf "basic_calculator" divInput) =
      .ok (.ToolResult (.tuple2 "division by zero" opFailureHint), .none) :=
  c1_amended_dispatch_converts_tool_faults toolsList
    [("tool_choice", .str "basic_calculator"), ("tool_input", .str "[1, 2]")]
    basic_calculator_tool "list indices must be integers or slices, not str" rfl rfl

/-- C2 counterexample: for the decision with tool_choice no tool and
tool_input hello, the Agent-class dispatcher of the part_000 notebook does
not yield a DirectAnswer: it has no direct-answer branch and prints the
not-found message. -/
theorem c2_counterexample :
    Agent.execute_tool toolsList (respOf "no tool" "hello") =
      .ok (.DispatchError .UnknownTool
        "Tool no tool not found or unsupported operation.", .none) ∧
    isDirectAnswer (Agent.execute_tool toolsList (respOf "no tool" "hello")) = false :=
  ⟨rfl, rfl⟩

/-- C2 amended: only the standalone dispatcher of the mistral notebook
yields a DirectAnswer carrying tool_input whenever tool_choice matches no
catalog tool (which covers the sentinel no tool and an empty or absent
choice); in particular its dispatch of the no-tool hello decision yields
DirectAnswer hello.  The Agent-class dispatcher of part_000 instead reports
its not-found message for the same decision, as the counterexample shows. -/
theorem c2_amended_no_tool_direct_answer
    (tools : List PyTool) (kvs : List (String × Json))
    (hnone : tools.find? (fun tl => matchesName tl.name (dictGet kvs "tool_choice")) = none) :
    Mistral.execute_tool tools (.obj kvs) =
      .ok (.DirectAnswer (dictGet kvs "tool_input"), .none) ∧
    Mistral.execute_tool toolsList (respOf "no tool" "hello") =
      .ok (.DirectAnswer (some (.str "hello")), .none) := by
  constructor
  · simp only [Mistral.execute_tool, hnone]
  · rfl

/-- C2 witness: instance of the amended statement at a decision with an
empty tool_choice against the registered tools, together with the concrete
no-tool hello fact. -/
theorem c2_witness :
    Mistral.execute_tool toolsList (respOf "" "direct text") =
      .ok (.DirectAnswer (some (.str "direct text")), .none) ∧
    Mistral.execute_tool toolsList (respOf "no tool" "hello") =
      .ok (.DirectAnswer (some (.str "hello")), .none) :=
  c2_amended_no_tool_direct_answer toolsList
    [("tool_choice", .str ""), ("tool_input", .str "direct text")] rfl

/-- C3 counterexample: for the decision naming nonexistent_tool, the
standalone dispatcher of the mistral notebook yields a DirectAnswer carrying
tool_input, not a DispatchError of kind UnknownTool. -/
theorem c3_counterexample :
    Mistral.execute_tool toolsList (respOf "nonexistent_tool" "x") =
      .ok (.DirectAnswer (some (.str "x")), .none) ∧
    isDispatchErr (Mistral.execute_tool toolsList (respOf "nonexistent_tool" "x")) = false :=
  ⟨rfl, rfl⟩

/-- C3 amended: only the Agent-class dispatcher of the part_000 notebook
yields an UnknownTool error outcome, naming tool_choice in its message,
whenever tool_choice matches no catalog tool, with no further catalog
search; in particular its dispatch of the nonexistent_tool decision reports
that tool as not found.  The mistral-notebook dispatcher instead falls
through to a DirectAnswer carrying tool_input, as the counterexample
shows. -/
theorem c3_amended_unknown_tool_error
    (tools : List PyTool) (kvs : List (String × Json))
    (hnone : tools.find? (fun tl => matchesName tl.name (dictGet kvs "tool_choice")) = none) :
    Agent.execute_tool tools (.obj kvs) =
      .ok (.DispatchError .UnknownTool (notFoundText (dictGet kvs "tool_choice")), .none) ∧
    Agent.execute_tool toolsList (respOf "nonexistent_tool" "x") =
      .ok (.DispatchError .UnknownTool
        "Tool nonexistent_tool not found or unsupported operation.", .none) := by
  constructor
  · simp only [Agent.execute_tool, hnone]
  · rfl

/-- C3 witness: instance of the amended statement at a decision naming a
tool absent from the catalog. -/
theorem c3_witness :
    Agent.execute_tool toolsList (respOf "missing_tool" "y") =
      .ok (.DispatchError .UnknownTool
        "Tool missing_tool not found or unsupported operation.", .none) ∧
    Agent.execute_tool toolsList (respOf "nonexistent_tool" "x") =
      .ok (.DispatchError .UnknownTool
        "Tool nonexistent_tool not found or unsupported operation.", .none) :=
  c3_amended_unknown_tool_error toolsList
    [("tool_choice", .str "missing_tool"), ("tool_input", .str "y")] rfl

/-- C4 counterexample: at a concrete stubbed model reply choosing the
calculator, work completes, the printed outcome is the ToolResult with the
answer, and the value work returns to its caller is None, not that
outcome. -/
theorem c4_counterexample :
    Agent.work toolsList (constSvc addDecisionText) "What is 5+5?" =
      .ok (.ToolResult (.str ans10), WorkRet.none) ∧
    WorkRet.none ≠ WorkRet.outcome (.ToolResult (.str ans10)) :=
  ⟨rfl, fun h => WorkRet.noConfusion h⟩

/-- C4 amended: work surfaces the outcome only by printing inside
execute_tool; whenever a call to work completes without an uncaught
exception, its Python return value is None. -/
theorem c4_amended_work_returns_none
    (tools : List PyTool) (svc : ModelSvc) (prompt : String)
    (o : ToolOutcome) (r : WorkRet)
    (h : Agent.work tools svc prompt = .ok (o, r)) : r = WorkRet.none := by
  unfold Agent.work at h
  split at h
  · exact absurd h (by simp)
  · split at h
    · exact absurd h (by simp)
    · simp only [Except.ok.injEq, Prod.mk.injEq] at h
      exact h.2.symm

/-- C4 witness: instance of the amended statement at the stubbed add
decision. -/
theorem c4_witness :
    Agent.work toolsList (constSvc addDecisionText) "What is 5+5?" =
      .ok (.ToolResult (.str ans10), WorkRet.none) ∧ WorkRet.none = WorkRet.none :=
  ⟨rfl, c4_amended_work_returns_none toolsList (constSvc addDecisionText) "What is 5+5?"
    (.ToolResult (.str ans10)) WorkRet.none rfl⟩

/-- C5: dispatching the decision that chooses basic_calculator with the add
5 and 5 input invokes the tool and yields a ToolResult whose text contains
10, in both notebook dispatchers. -/
theorem c5_dispatch_add_yields_10 :
    Agent.execute_tool toolsList (respOf "basic_calculator" addInput) =
      .ok (.ToolResult (.str ans10), .none) ∧
    Mistral.execute_tool toolsList (respOf "basic_calculator" addInput) =
      .ok (.ToolResult (.str ans10), .none) ∧
    strContains ans10 "10" = true :=
  ⟨rfl, rfl, rfl⟩

/-- C6 counterexample: at a completion-service stub whose generated text is
not parseable as JSON, Agent.think raises the parse failure uncaught to its
caller and produces no error outcome carrying the raw text. -/
theorem c6_counterexample :
    Agent.think (constSvc "tool_choice: basic_calculator") "q" = .error "Expecting value" ∧
    isRaise (Agent.think (constSvc "tool_choice: basic_calculator") "q") = true :=
  ⟨rfl, rfl⟩

/-- C6 amended: the model client catches only transport failures, converting
them into the error dict outcome; a generated text that fails the JSON parse
makes Agent.think raise that parse failure uncaught to the caller, and no
MalformedDecision outcome exists in the code. -/
theorem c6_amended_parse_failure_raises
    (svcText e prompt emsg p2 : String)
    (hparse : Json.parse svcText = .error e) :
    Agent.think (constSvc svcText) prompt = .error e ∧
    Agent.think (failSvc emsg) p2 = .ok (.obj [("error", .str emsg)]) := by
  constructor
  · simp only [Agent.think, constSvc, hparse]
  · rfl

/-- C6 witness: instance of the amended statement at an unparseable reply
and at a transport failure. -/
theorem c6_witness :
    Json.parse "tool_choice: basic_calculator" = .error "Expecting value" ∧
    (Agent.think (constSvc "tool_choice: basic_calculator") "q2" = .error "Expecting value" ∧
     Agent.think (failSvc "Connection refused") "q3" =
       .ok (.obj [("error", .str "Connection refused")])) :=
  ⟨rfl, c6_amended_parse_failure_raises "tool_choice: basic_calculator" "Expecting value"
    "q2" "Connection refused" "q3" rfl⟩

/-- A first tool of a duplicate-name pair. -/
def dupA : PyTool := ⟨"dup_tool", some "First duplicate.", fun _ => .ok (.str "a")⟩

/-- A second tool carrying the same callable name as the first. -/
def dupB : PyTool := ⟨"dup_tool", some "Second duplicate.", fun _ => .ok (.str "b")⟩

/-- C7 counterexample: catalog construction over two tools sharing a name
does not fail: the Agent-class extractor registers a descriptor for both,
and the mistral dict comprehension silently keeps only the last docstring. -/
theorem c7_counterexample :
    (Agent.prepare_tools_info [dupA, dupB]).map ToolInfo.name = ["dup_tool", "dup_tool"] ∧
    Mistral.tools_dict [dupA, dupB] = [("dup_tool", some "Second duplicate.")] :=
  ⟨rfl, rfl⟩

/-- C7 amended: neither notebook detects duplicate tool names at catalog
construction: the Agent-class extractor registers one descriptor per tool,
duplicates included, and the mistral dict comprehension keeps exactly the
last docstring of a duplicated name under a single entry. -/
theorem c7_amended_duplicates_not_rejected
    (ts : List PyTool) (t1 t2 : PyTool) (h : t1.name = t2.name) :
    (Agent.prepare_tools_info ts).map ToolInfo.name = ts.map PyTool.name ∧
    Mistral.tools_dict [t1, t2] = [(t1.name, t2.doc)] := by
  refine ⟨prepare_tools_info_names ts, ?_⟩
  simp [Mistral.tools_dict, pyDictInsert, h]

/-- C7 witness: instance of the amended statement at the concrete
duplicate-name pair. -/
theorem c7_witness :
    (Agent.prepare_tools_info [dupA, dupB]).map ToolInfo.name =
      [dupA, dupB].map PyTool.name ∧
    Mistral.tools_dict [dupA, dupB] = [(dupA.name, dupB.doc)] :=
  c7_amended_duplicates_not_rejected [dupA, dupB] dupA dupB rfl

/-- C8 counterexample: at a stub returning a single-quoted pseudo-JSON
decision text, the model client performs no quote normalization: it raises
the strict parse failure, although the normalized text would parse. -/
theorem c8_counterexample :
    Agent.think (constSvc sqDecisionText) "q" =
      .error "Expecting property name enclosed in double quotes" ∧
    (Json.parse (cleanInput sqDecisionText)).isOk = true :=
  ⟨rfl, rfl⟩

/-- C8 amended: the quote normalization and wrapper stripping live inside
basic_calculator, whose behavior depends only on the cleaned input, while
the model client parses the generated text strictly, with no normalization
before json.loads. -/
theorem c8_amended_normalization_in_tool
    (s t text p : String) (j : Json)
    (hclean : cleanInput s = cleanInput t)
    (hok : Agent.think (constSvc text) p = .ok j) :
    basic_calculator_body s = basic_calculator_body t ∧ Json.parse text = .ok j := by
  constructor
  · unfold basic_calculator_body
    rw [hclean]
  · unfold Agent.think constSvc at hok
    dsimp only at hok
    revert hok
    cases Json.parse text with
    | ok v => intro hok; exact hok
    | error e => intro hok; exact absurd hok (by simp)

/-- The parsed add input as a JSON object. -/
def addParsed : Json :=
  .obj [("num1", .int 5), ("num2", .int 5), ("operation", .str "add")]

/-- C8 witness: the single-quoted and double-quoted add inputs clean to the
same string, hence the calculator treats them identically, and the client
parse of the double-quoted decision text is the strict json.loads result. -/
theorem c8_witness :
    (cleanInput sqAddInput = cleanInput addInput ∧
     Agent.think (constSvc addInput) "p" = .ok addParsed) ∧
    (basic_calculator_body sqAddInput = basic_calculator_body addInput ∧
     Json.parse addInput = .ok addParsed) :=
  ⟨⟨rfl, rfl⟩, c8_amended_normalization_in_tool sqAddInput addInput addInput "p" addParsed rfl rfl⟩

/-- A docstring with one parameter line missing the colon and one missing
the type parenthetical. -/
def malformedDoc : String :=
  "Tool with malformed documentation.\n\nParameters:\nalpha no colon here\nbeta: has a colon but no parenthetical\n"

/-- A tool carrying the malformed docstring. -/
def malformedTool : PyTool := ⟨"malformed_tool", some malformedDoc, fun _ => .ok (.str "m")⟩

/-- C9 counterexample: the parameter line missing its type parenthetical is
not omitted from the descriptor: it is registered with the default type
str. -/
theorem c9_counterexample :
    (toolInfoOf malformedTool).parameters =
      [("beta", ⟨"str", "has a colon but no parenthetical", true⟩)] ∧
    ((toolInfoOf malformedTool).parameters.map Prod.fst).contains "beta" = true :=
  ⟨rfl, rfl⟩

/-- C9 amended: descriptor extraction is total and registers one descriptor
per tool whatever the docstrings contain; a parameter line without a
colon-space is skipped without contributing an entry, while a line missing
only the type parenthetical is kept with its type defaulted to str rather
than omitted; the malformed tool never prevents other tools from
registering. -/
theorem c9_amended_extractor_total_graceful
    (ts : List PyTool) (line desc : String) (rest : List String)
    (acc : List (String × ParamInfo))
    (h : strContains line ": " = false) :
    (Agent.prepare_tools_info ts).map ToolInfo.name = ts.map PyTool.name ∧
    paramLoop (line :: rest) true desc acc = paramLoop rest true desc acc ∧
    (toolInfoOf malformedTool).parameters =
      [("beta", ⟨"str", "has a colon but no parenthetical", true⟩)] ∧
    (Agent.prepare_tools_info [malformedTool, reverse_string_tool]).map ToolInfo.name =
      ["malformed_tool", "reverse_string"] := by
  refine ⟨prepare_tools_info_names ts, ?_, rfl, rfl⟩
  conv_lhs => rw [paramLoop.eq_def]
  dsimp only
  split
  · rfl
  · split
    · rfl
    · simp [h]

/-- C9 witness: instance of the amended statement at a line with no colon at
all. -/
theorem c9_witness :
    (Agent.prepare_tools_info [malformedTool]).map ToolInfo.name =
      [malformedTool].map PyTool.name ∧
    paramLoop ("alpha no colon here" :: []) true "d" [] = paramLoop [] true "d" [] ∧
    (toolInfoOf malformedTool).parameters =
      [("beta", ⟨"str", "has a colon but no parenthetical", true⟩)] ∧
    (Agent.prepare_tools_info [malformedTool, reverse_string_tool]).map ToolInfo.name =
      ["malformed_tool", "reverse_string"] :=
  c9_amended_extractor_total_graceful [malformedTool] "alpha no colon here" "d" [] [] rfl

/-- C10 counterexample: an input string that is valid JSON but not an object
containing the required keys makes basic_calculator raise a TypeError
uncaught, rather than return the 2-tuple error shape. -/
theorem c10_counterexample :
    basic_calculator_body "[1, 2]" =
      .error "list indices must be integers or slices, not str" ∧
    isTuple2 (basic_calculator_body "[1, 2]") = false :=
  ⟨rfl, rfl⟩

/-- C10 amended: basic_calculator returns the 2-tuple of message and hint
for every input whose cleaned form fails the JSON parse and for a JSON
object missing a required key; a faulting operation such as division by
zero also returns the 2-tuple; an unrecognized operation name returns the
plain unsupported-operation string; but an input parsing to a non-object
raises a TypeError uncaught. -/
theorem c10_amended_calculator_return_shapes
    (s e : String) (hbad : Json.parse (cleanInput s) = .error e) :
    basic_calculator_body s = .ok (.tuple2 e invalidInputHint) ∧
    basic_calculator_body missingKeyInput =
      .ok (.tuple2 (keyErrorStr "num1") invalidInputHint) ∧
    basic_calculator_body divInput = .ok (.tuple2 "division by zero" opFailureHint) ∧
    basic_calculator_body frobInput = .ok (.str unsupportedOpText) ∧
    basic_calculator_body "[1, 2]" =
      .error "list indices must be integers or slices, not str" := by
  refine ⟨?_, rfl, rfl, rfl, rfl⟩
  unfold basic_calculator_body
  rw [hbad]

/-- C10 witness: instance of the amended statement at an input that is not
JSON at all. -/
theorem c10_witness :
    basic_calculator_body "not json" = .ok (.tuple2 "Expecting value" invalidInputHint) ∧
    basic_calculator_body missingKeyInput =
      .ok (.tuple2 (keyErrorStr "num1") invalidInputHint) ∧
    basic_calculator_body divInput = .ok (.tuple2 "division by zero" opFailureHint) ∧
    basic_calculator_body frobInput = .ok (.str unsupportedOpText) ∧
    basic_calculator_body "[1, 2]" =
      .error "list indices must be integers or slices, not str" :=
  c10_amended_calculator_return_shapes "not json" "Expecting value" rfl
